import Mathlib

/-!
Verification of `sudospawner/mediator.py` against its specification.

The mediator is a privilege-separated helper: it reads one JSON request
from standard input and performs one of two actions, `kill` (probe or
terminate a batch job via `qstat`/`qdel`) or `spawn` (submit a notebook
job via `qsub`).  External collaborators (the `qstat` job state, the
`qdel` return code, the `qsub` output) are passed in explicitly, and
machine effects (process exit code, bytes written to standard output,
the environment handed to `qsub`) are returned explicitly, so every
function below is a pure shallow embedding of the corresponding Python
code.
-/

namespace Mediator

/-- A JSON value, as produced by Python's `json` module for the payloads
this program handles (objects, arrays, strings, integers, booleans, null). -/
inductive Json where
  | null : Json
  | bool (b : Bool) : Json
  | num (n : Int) : Json
  | str (s : String) : Json
  | arr (xs : List Json) : Json
  | obj (kvs : List (String × Json)) : Json

/-- Minimal JSON string escaping, as `json.dump` performs on the strings
this program emits (quote and backslash; other emitted characters need no
escaping). -/
def escapeStr (s : String) : String :=
  String.mk (s.data.foldr (fun c acc =>
    if c = '"' then '\\' :: '"' :: acc
    else if c = '\\' then '\\' :: '\\' :: acc
    else c :: acc) [])

mutual

/-- Serialization of a JSON value with `json.dump` default separators:
items joined by a comma-space, keys followed by colon-space. -/
def encodeJson : Json → String
  | .null => "null"
  | .bool true => "true"
  | .bool false => "false"
  | .num n => toString n
  | .str s => "\"" ++ escapeStr s ++ "\""
  | .arr xs => "[" ++ encodeItems xs ++ "]"
  | .obj kvs => "\x7b" ++ encodeMembers kvs ++ "\x7d"

/-- Array items, comma-space separated. -/
def encodeItems : List Json → String
  | [] => ""
  | [x] => encodeJson x
  | x :: y :: rest => encodeJson x ++ ", " ++ encodeItems (y :: rest)

/-- Object members, comma-space separated, colon-space after the key. -/
def encodeMembers : List (String × Json) → String
  | [] => ""
  | [(k, v)] => "\"" ++ escapeStr k ++ "\": " ++ encodeJson v
  | (k, v) :: m :: rest =>
      "\"" ++ escapeStr k ++ "\": " ++ encodeJson v ++ ", " ++
        encodeMembers (m :: rest)

end

/-- `finish(data, fp)`: serialize the result object as a single JSON
document to the given stream and flush.  The returned string is the
complete sequence of bytes that write puts on the stream. -/
def finish (data : Json) : String := encodeJson data

/-! ### A JSON reader, used to state the round-trip property
(what a caller decoding the emitted bytes as JSON obtains). -/

/-- Drop leading JSON whitespace. -/
def skipWs : List Char → List Char
  | c :: rest =>
      if c = ' ' ∨ c = '\n' ∨ c = '\t' ∨ c = '\r' then skipWs rest else c :: rest
  | [] => []

/-- Read a JSON string body up to the closing quote, handling the
escapes the encoder can produce. -/
def readStr : List Char → Option (String × List Char)
  | [] => none
  | '"' :: rest => some ("", rest)
  | '\\' :: c :: rest =>
      (readStr rest).map (fun p => (String.mk (c :: p.1.data), p.2))
  | c :: rest =>
      (readStr rest).map (fun p => (String.mk (c :: p.1.data), p.2))

/-- Read a run of decimal digits as a natural number; fails on no digit. -/
def readDigits (acc : Option Nat) : List Char → Option Nat × List Char
  | c :: rest =>
      if c.isDigit then
        readDigits (some ((acc.getD 0) * 10 + (c.toNat - 48))) rest
      else (acc, c :: rest)
  | [] => (acc, [])

mutual

/-- Read one JSON value from a character stream; `fuel` bounds the
nesting depth.  Returns the value and the unconsumed remainder. -/
def readVal : Nat → List Char → Option (Json × List Char)
  | 0, _ => none
  | fuel + 1, cs =>
    match skipWs cs with
    | 't' :: 'r' :: 'u' :: 'e' :: rest => some (.bool true, rest)
    | 'f' :: 'a' :: 'l' :: 's' :: 'e' :: rest => some (.bool false, rest)
    | 'n' :: 'u' :: 'l' :: 'l' :: rest => some (.null, rest)
    | '"' :: rest => (readStr rest).map (fun p => (.str p.1, p.2))
    | '-' :: rest =>
        (match readDigits none rest with
         | (some n, rest2) => some (.num (-(n : Int)), rest2)
         | (none, _) => none)
    | c :: rest =>
        if c = '\x7b' then
          match skipWs rest with
          | c2 :: rest2 =>
              if c2 = '\x7d' then some (.obj [], rest2)
              else readMembers fuel [] (c2 :: rest2)
          | [] => none
        else if c = '[' then
          match skipWs rest with
          | ']' :: rest2 => some (.arr [], rest2)
          | rest2 => readItems fuel [] rest2
        else if c.isDigit then
          (match readDigits none (c :: rest) with
           | (some n, rest2) => some (.num (n : Int), rest2)
           | (none, _) => none)
        else none
    | [] => none

/-- Read the members of a JSON object after the opening brace (first
member not yet consumed), accumulating in reverse. -/
def readMembers : Nat → List (String × Json) → List Char →
    Option (Json × List Char)
  | 0, _, _ => none
  | fuel + 1, acc, cs =>
    match skipWs cs with
    | '"' :: rest =>
        match readStr rest with
        | none => none
        | some (k, rest2) =>
          match skipWs rest2 with
          | ':' :: rest3 =>
              match readVal fuel rest3 with
              | none => none
              | some (v, rest4) =>
                match skipWs rest4 with
                | ',' :: rest5 => readMembers fuel ((k, v) :: acc) rest5
                | c :: rest5 =>
                    if c = '\x7d' then
                      some (.obj (((k, v) :: acc).reverse), rest5)
                    else none
                | [] => none
          | _ => none
    | _ => none

/-- Read the items of a JSON array after the opening bracket (first item
not yet consumed), accumulating in reverse. -/
def readItems : Nat → List Json → List Char → Option (Json × List Char)
  | 0, _, _ => none
  | fuel + 1, acc, cs =>
    match readVal fuel cs with
    | none => none
    | some (v, rest) =>
      match skipWs rest with
      | ',' :: rest2 => readItems fuel (v :: acc) rest2
      | ']' :: rest2 => some (.arr ((v :: acc).reverse), rest2)
      | _ => none

end

/-- Decode a complete string as one JSON document: one value, possibly
surrounded by whitespace, with nothing after it. -/
def decodeJson (s : String) : Option Json :=
  match readVal (s.length + 1) s.data with
  | some (v, rest) => if skipWs rest = [] then some v else none
  | none => none

/-! ### `kill(pid, signal)` — status probe / termination -/

/-- `kill(pid, signal)`: the value the local variable `alive` holds when
control reaches `finish({'alive': alive})`, or `none` when no branch ever
assigned it (a `NameError` is then raised at the `finish` call and no
result is emitted).

Collaborators: `qstatState` is the `job_state` string the `qstat -x`
status record carries, and `qdelRc` is the return code of the `qdel`
termination command. -/
def kill (pid signal : Int) (qstatState : String) (qdelRc : Int) :
    Option Bool :=
  -- if (signal == 0): state from qstat; alive = (state == 'R')
  let alive0 : Option Bool :=
    if signal = 0 then some (qstatState == "R") else none
  -- if (signal in [2, 9, 15]): run qdel; if rc == 0 then alive = False
  if signal = 2 ∨ signal = 9 ∨ signal = 15 then
    if qdelRc = 0 then some false else alive0
  else alive0

/-! ### `spawn(args, env)` — job submission -/

/-- Python's `s.split(sep)` for a one-character separator (the program
splits only on `"="` and `"."`): cut at every occurrence, keeping empty
fields. -/
def splitOnChar (sep : Char) : List Char → List (List Char)
  | [] => [[]]
  | c :: rest =>
      if c = sep then [] :: splitOnChar sep rest
      else
        match splitOnChar sep rest with
        | [] => [[c]]
        | g :: gs => (c :: g) :: gs

/-- `s.split(sep)` on strings, via `splitOnChar`. -/
def pySplit (sep : Char) (s : String) : List String :=
  (splitOnChar sep s.data).map String.mk

/-- Drop leading ASCII whitespace characters. -/
def dropWsL : List Char → List Char
  | c :: rest => if c.isWhitespace then dropWsL rest else c :: rest
  | [] => []

/-- Python's `s.strip()`: remove whitespace at both ends. -/
def pyStrip (s : String) : String :=
  String.mk ((dropWsL (dropWsL s.data).reverse).reverse)

/-- Read a non-empty all-digit suffix as a natural number. -/
def allDigits (acc : Option Nat) : List Char → Option Nat
  | [] => acc
  | c :: rest =>
      if c.isDigit then
        allDigits (some ((acc.getD 0) * 10 + (c.toNat - 48))) rest
      else none

/-- Python's `int(s)`: an optional sign followed by at least one digit;
anything else raises `ValueError`.  (Python additionally tolerates
surrounding whitespace and digit-group underscores; the program's input
here is already stripped, and those cases do not arise in any claim.) -/
def pyInt (s : String) : Option Int :=
  match s.data with
  | '-' :: rest => (allDigits none rest).map (fun n => -(n : Int))
  | '+' :: rest => (allDigits none rest).map (fun n => (n : Int))
  | cs => (allDigits none cs).map (fun n => (n : Int))

/-- The single-quote character, used in the token-export statement
`"export %s='%s';" % (k, env[k])`. -/
def sq : String := String.singleton (Char.ofNat 39)

/-- `"export %s='%s';" % (k, v)` — the exported-variable statement
inserted at the front of the command. -/
def exportStmt (k v : String) : String :=
  "export " ++ k ++ "=" ++ sq ++ v ++ sq ++ ";"

/-- Whether `pat` occurs as a contiguous run starting at some position
of the character list. -/
def findSub (pat : List Char) : List Char → Bool
  | [] => pat.isEmpty
  | c :: rest => pat.isPrefixOf (c :: rest) || findSub pat rest

/-- Python's substring test `pat in line`. -/
def containsSub (line pat : String) : Bool :=
  findSub pat.data line.data

/-- Lines 78-81: `for line in args: if "--port=" in line:
port = line.split("=")[1]`.  The last matching line wins; `none` means
`port` is never assigned, so the later template substitution raises
`NameError`. -/
def extractPort (args : List String) : Option String :=
  args.foldl
    (fun acc line =>
      if containsSub line "--port=" then some ((pySplit '=' line).getD 1 "")
      else acc)
    none

/-- Python `dict` lookup on the request's `env` mapping (keys unique). -/
def lookupEnv (env : List (String × String)) (k : String) : Option String :=
  match env with
  | [] => none
  | (k0, v0) :: rest => if k0 = k then some v0 else lookupEnv rest k

/-- How a `spawn` invocation can fail before emitting a result. -/
inductive SpawnError where
  /-- No `--port=` entry in `args`: `port` is unbound and the template
  substitution on line 106 raises `NameError` (before the fork). -/
  | portMissing : SpawnError
  /-- `env["JPY_API_TOKEN"]` on line 114 raises `KeyError`
  (before the fork). -/
  | tokenMissing : SpawnError
  /-- `int(jobid)` on line 156 raises `ValueError` in the detached
  child: nothing is written to the pipe. -/
  | jobidParse : SpawnError

/-- The observable effects of one `spawn(args, env)` run. -/
structure SpawnTrace where
  /-- The command list after lines 112-114 (`cmd.insert(0, export...)`),
  when control reaches line 114 successfully. -/
  cmd : Option (List String)
  /-- The environment handed to the `qsub` subprocess on line 145,
  when that call is reached. -/
  qsubEnv : Option (List (String × String))
  /-- The bytes the child writes to the result pipe, which the parent
  relays verbatim to standard output. -/
  piped : List String
  /-- The failure, if the run does not produce a result. -/
  error : Option SpawnError

/-- Lines 112-114: `cmd = [sys.executable, '-m', 'jupyterhub.singleuser']
 + args`, then `cmd.insert(0, "export JPY_API_TOKEN='...';")`. -/
def launchCmd (exe tok : String) (args : List String) : List String :=
  exportStmt "JPY_API_TOKEN" tok ::
    exe :: "-m" :: "jupyterhub.singleuser" :: args

/-- Lines 120-122: `if 'PYTHONPATH' in env: warn; env.pop('PYTHONPATH')`. -/
def sanitizeEnv (env : List (String × String)) : List (String × String) :=
  env.filter (fun kv => kv.1 ≠ "PYTHONPATH")

/-- Line 152: `jobid = out.decode('ascii').split('.')[0]` on the
stripped `qsub` output. -/
def jobidOf (out : String) : String :=
  (pySplit '.' (pyStrip out)).headD ""

/-- `spawn(args, env)`: port extraction, command construction,
`PYTHONPATH` sanitization, and the detached `qsub` submission whose
trimmed output's first dot-delimited token becomes the reported pid.
`exe` is `sys.executable`; `qsubOut` is the collaborator `qsub`'s
standard output.  (The PBS template text and the space-join of `cmd`
into the payload are string plumbing not referenced here; the template
substitution matters only as the point where a missing port is fatal.) -/
def spawn (exe : String) (args : List String)
    (env : List (String × String)) (qsubOut : String) : SpawnTrace :=
  match extractPort args with
  | none => ⟨none, none, [], some .portMissing⟩
  | some _port =>
    match lookupEnv env "JPY_API_TOKEN" with
    | none => ⟨none, none, [], some .tokenMissing⟩
    | some tok =>
      -- child: finish({'pid': int(jobid)}) through the pipe
      match pyInt (jobidOf qsubOut) with
      | none => ⟨some (launchCmd exe tok args), some (sanitizeEnv env),
          [], some .jobidParse⟩
      | some pid => ⟨some (launchCmd exe tok args), some (sanitizeEnv env),
          [finish (.obj [("pid", .num pid)])], none⟩

/-! ### `main()` — decode and dispatch -/

/-- The keyword payload left after `kwargs.pop('action')`: the fields a
request object may carry.  (`kill(**kwargs)` / `spawn(**kwargs)` raise
`TypeError` when the fields do not match the callee's parameters.) -/
structure Payload where
  pid : Option Int := none
  signal : Option Int := none
  args : Option (List String) := none
  env : Option (List (String × String)) := none

/-- What `json.load(sys.stdin)` yields: either a parse failure
(`ValueError`) or an object with an `action` string and the remaining
fields. -/
inductive StdinValue where
  | malformed : StdinValue
  | withAction (action : String) (payload : Payload) : StdinValue

/-- The external collaborators of one invocation. -/
structure Collab where
  qstatState : String
  qdelRc : Int
  qsubOut : String

/-- The caller-observable outcome of one invocation. -/
structure MainResult where
  /-- Process exit status (`sys.exit(1)` on bad JSON; an uncaught
  exception also exits 1; normal return exits 0). -/
  exit : Nat
  /-- The JSON documents written to standard output, in order. -/
  stdout : List String
  /-- Whether control entered the `kill` executor. -/
  killCalled : Bool
  /-- Whether control entered the `spawn` executor. -/
  spawnCalled : Bool

/-- `main()`: parse JSON from stdin and take the appropriate action.
On parse failure, exit 1 with nothing written.  Otherwise dispatch on
the popped `action`: neither "kill" nor "spawn" raises `TypeError`
(uncaught, exit 1).  A `kill` run whose `alive` was never bound raises
`NameError` (exit 1, nothing written).  A `spawn` failure before the
fork (missing port or token) exits 1; a failure in the detached child
leaves the parent relaying an empty pipe and exiting 0. -/
def mainRun (exe : String) (c : Collab) (stdin : StdinValue) : MainResult :=
  match stdin with
  | .malformed => ⟨1, [], false, false⟩
  | .withAction action p =>
    if action = "kill" then
      match p.pid, p.signal with
      | some pid, some sig =>
        match kill pid sig c.qstatState c.qdelRc with
        | some alive => ⟨0, [finish (.obj [("alive", .bool alive)])], true, false⟩
        | none => ⟨1, [], true, false⟩
      | _, _ => ⟨1, [], false, false⟩
    else if action = "spawn" then
      match p.args, p.env with
      | some args, some env =>
        let t := spawn exe args env c.qsubOut
        match t.error with
        | some .portMissing => ⟨1, [], false, true⟩
        | some .tokenMissing => ⟨1, [], false, true⟩
        | some .jobidParse => ⟨0, [], false, true⟩
        | none => ⟨0, t.piped, false, true⟩
      | _, _ => ⟨1, [], false, false⟩
    else ⟨1, [], false, false⟩

/-! ### Helper lemmas -/

/-- Looking up a key in an environment filtered on that very key
always fails. -/
theorem lookupEnv_filter_self (env : List (String × String)) (k : String) :
    lookupEnv (env.filter (fun kv => kv.1 ≠ k)) k = none := by
  induction env with
  | nil => rfl
  | cons kv rest ih =>
      rw [List.filter_cons]
      by_cases h : kv.1 = k
      · simpa [h] using ih
      · simpa [h, lookupEnv] using ih

/-- When no argument contains the `--port=` marker, the extraction loop
leaves `port` unassigned. -/
theorem extractPort_eq_none (args : List String)
    (h : ∀ l ∈ args, containsSub l "--port=" = false) :
    extractPort args = none := by
  induction args with
  | nil => rfl
  | cons a rest ih =>
      have ha := h a (List.mem_cons_self a rest)
      have hrest : ∀ l ∈ rest, containsSub l "--port=" = false :=
        fun l hl => h l (List.mem_cons_of_mem a hl)
      simpa [extractPort, List.foldl, ha] using ih hrest

/-! ### Claims -/

/-- C1 (counterexample): the claim says the generated launch command's
first two elements are the fixed interpreter and the single-user-server
launcher module.  It is false: after `cmd.insert(0, ...)` on line 114
the command's first element is the `JPY_API_TOKEN` export statement, not
the interpreter.  Concretely, for the request
`args = ["--port=8888"], env = {JPY_API_TOKEN: "abc"}` with interpreter
`"python"`, the command built is the export statement followed by the
interpreter/launcher prefix and the args. -/
theorem c1_counterexample :
    ((spawn "python" ["--port=8888"] [("JPY_API_TOKEN", "abc")] "1.s").cmd.map
        (fun c => c.headD "")) = some (exportStmt "JPY_API_TOKEN" "abc") ∧
    exportStmt "JPY_API_TOKEN" "abc" ≠ "python" := by
  refine ⟨rfl, ?_⟩
  decide

/-- C1 (amended): for every spawn request whose args contain a `--port=`
entry and whose env carries `JPY_API_TOKEN`, the generated launch
command is a fixed four-element prefix — the token-export statement,
the fixed interpreter, `-m`, and the launcher module
`jupyterhub.singleuser` — followed by all caller-supplied args, in their
original order, unmodified; the caller can influence arguments but not
which program is launched. -/
theorem c1_amended_cmd (exe : String) (args : List String)
    (env : List (String × String)) (qsubOut : String) (port tok : String)
    (hp : extractPort args = some port)
    (ht : lookupEnv env "JPY_API_TOKEN" = some tok) :
    (spawn exe args env qsubOut).cmd =
      some (exportStmt "JPY_API_TOKEN" tok ::
        exe :: "-m" :: "jupyterhub.singleuser" :: args) := by
  unfold spawn
  rw [hp, ht]
  cases pyInt (jobidOf qsubOut) <;> rfl

/-- C1 (witness): the amended statement at a concrete input. -/
theorem c1_amended_cmd_witness :
    (spawn "python" ["--port=8888"] [("JPY_API_TOKEN", "xyz")] "77.n").cmd =
      some (exportStmt "JPY_API_TOKEN" "xyz" ::
        "python" :: "-m" :: "jupyterhub.singleuser" :: ["--port=8888"]) :=
  c1_amended_cmd "python" ["--port=8888"] [("JPY_API_TOKEN", "xyz")] "77.n"
    "8888" "xyz" rfl rfl

/-- C2: for every kill request with signal 0, the emitted result is the
single JSON document whose `alive` field is the boolean
`state == "R"` — true exactly when the status query's recorded
`job_state` is the running-state code `R`, false for any other state. -/
theorem c2_probe_alive_iff_running (exe : String) (pid : Int) (st : String)
    (rc : Int) (q : String) :
    (mainRun exe ⟨st, rc, q⟩
        (.withAction "kill" { pid := some pid, signal := some 0 })).stdout =
      [finish (.obj [("alive", .bool (st == "R"))])] ∧
    ((st == "R") = true ↔ st = "R") := by
  constructor
  · simp [mainRun, kill]
  · exact beq_iff_eq

/-- C3: for every kill request with signal 2, 9 or 15 where the `qdel`
termination command exits with code 0, the emitted result has
`alive = false` (and the process exits 0). -/
theorem c3_terminate_confirmed_dead (exe : String) (pid sig : Int)
    (st q : String) (h : sig = 2 ∨ sig = 9 ∨ sig = 15) :
    mainRun exe ⟨st, 0, q⟩
        (.withAction "kill" { pid := some pid, signal := some sig }) =
      ⟨0, [finish (.obj [("alive", .bool false)])], true, false⟩ := by
  rcases h with rfl | rfl | rfl <;> simp [mainRun, kill]

/-- C3 (witness): signal 9 with a zero `qdel` exit code at a concrete
input. -/
theorem c3_terminate_confirmed_dead_witness :
    mainRun "python" ⟨"R", 0, "1.x"⟩
        (.withAction "kill" { pid := some 1234, signal := some 9 }) =
      ⟨0, [finish (.obj [("alive", .bool false)])], true, false⟩ :=
  c3_terminate_confirmed_dead "python" 1234 9 "R" "1.x" (Or.inr (Or.inl rfl))

/-- C4: for every spawn request whose env contains the disallowed key
`PYTHONPATH` (and which reaches the submit call: port and token
present), the environment handed to the `qsub` submission excludes
`PYTHONPATH`, whatever other keys are present; the violation is not
fatal — the submit call is still reached with the sanitized
environment. -/
theorem c4_pythonpath_stripped (exe : String) (args : List String)
    (env : List (String × String)) (q : String) (port tok v : String)
    (hp : extractPort args = some port)
    (ht : lookupEnv env "JPY_API_TOKEN" = some tok)
    (hpy : lookupEnv env "PYTHONPATH" = some v) :
    (spawn exe args env q).qsubEnv =
      some (env.filter (fun kv => kv.1 ≠ "PYTHONPATH")) ∧
    lookupEnv (env.filter (fun kv => kv.1 ≠ "PYTHONPATH")) "PYTHONPATH" =
      none := by
  refine ⟨?_, lookupEnv_filter_self env "PYTHONPATH"⟩
  unfold spawn
  rw [hp, ht]
  cases pyInt (jobidOf q) <;> rfl

/-- C4 (witness): the spec's concrete scenario —
`env = {JPY_API_TOKEN: "abc", PYTHONPATH: "/evil"}`. -/
theorem c4_pythonpath_stripped_witness :
    (spawn "python" ["--port=8888"]
        [("JPY_API_TOKEN", "abc"), ("PYTHONPATH", "/evil")] "5678.server").qsubEnv =
      some ([("JPY_API_TOKEN", "abc"), ("PYTHONPATH", "/evil")].filter
        (fun kv => kv.1 ≠ "PYTHONPATH")) ∧
    lookupEnv ([("JPY_API_TOKEN", "abc"), ("PYTHONPATH", "/evil")].filter
        (fun kv => kv.1 ≠ "PYTHONPATH")) "PYTHONPATH" = none :=
  c4_pythonpath_stripped "python" ["--port=8888"]
    [("JPY_API_TOKEN", "abc"), ("PYTHONPATH", "/evil")] "5678.server"
    "8888" "abc" "/evil" rfl rfl rfl

/-- C5: when standard input does not parse as JSON, `main` exits with a
non-zero status (`sys.exit(1)`) and writes nothing to standard
output. -/
theorem c5_bad_json_no_output (exe : String) (c : Collab) :
    (mainRun exe c .malformed).exit ≠ 0 ∧
    (mainRun exe c .malformed).stdout = [] := by
  exact ⟨by simp [mainRun], rfl⟩

/-- C6: for every spawn request whose args contain no `--port=` entry,
the run is fatal — the port variable is never assigned, the template
substitution raises `NameError` before the fork, the process exits
non-zero, and no result is written. -/
theorem c6_missing_port_fatal (exe : String) (env : List (String × String))
    (c : Collab) (args : List String)
    (h : ∀ l ∈ args, containsSub l "--port=" = false) :
    mainRun exe c (.withAction "spawn" { args := some args, env := some env }) =
      ⟨1, [], false, true⟩ := by
  have hspawn : spawn exe args env c.qsubOut =
      ⟨none, none, [], some .portMissing⟩ := by
    unfold spawn
    rw [extractPort_eq_none args h]
  simp [mainRun, hspawn]

/-- C6 (witness): a spawn request whose only arg is `-a`. -/
theorem c6_missing_port_fatal_witness :
    mainRun "python" ⟨"R", 0, "1.x"⟩
        (.withAction "spawn"
          { args := some ["-a"], env := some [("JPY_API_TOKEN", "t")] }) =
      ⟨1, [], false, true⟩ :=
  c6_missing_port_fatal "python" [("JPY_API_TOKEN", "t")] ⟨"R", 0, "1.x"⟩
    ["-a"] (by decide)

/-- C7: for every decoded request whose action is neither `kill` nor
`spawn`, `main` raises `TypeError` — the process exits non-zero,
neither executor is entered, and no result is produced. -/
theorem c7_unknown_action_fatal (exe : String) (c : Collab) (a : String)
    (p : Payload) (hk : a ≠ "kill") (hs : a ≠ "spawn") :
    mainRun exe c (.withAction a p) = ⟨1, [], false, false⟩ := by
  simp [mainRun, hk, hs]

/-- C7 (witness): the action string `restart`. -/
theorem c7_unknown_action_fatal_witness :
    mainRun "python" ⟨"R", 0, "1.x"⟩ (.withAction "restart" {}) =
      ⟨1, [], false, false⟩ :=
  c7_unknown_action_fatal "python" ⟨"R", 0, "1.x"⟩ "restart" {}
    (by decide) (by decide)

/-- C8: round-trip — encoding the result object `{alive: true}` with
the response encoder emits exactly the bytes of the JSON document
`{"alive": true}` (written once, nothing trailing), and decoding those
bytes as JSON yields exactly that object, with no extra fields. -/
theorem c8_alive_roundtrip :
    decodeJson (finish (.obj [("alive", .bool true)])) =
      some (.obj [("alive", .bool true)]) ∧
    finish (.obj [("alive", .bool true)]) = "\x7b\"alive\": true\x7d" := by
  exact ⟨rfl, rfl⟩

/-- C9: for every kill request with a termination signal (2, 9 or 15)
where `qdel` exits non-zero — and signal 0's probe branch therefore
never ran in this invocation — the local `alive` is never assigned, so
`finish` raises `NameError`: the process exits non-zero and emits no
result. -/
theorem c9_unbound_alive (exe : String) (pid sig : Int) (st q : String)
    (rc : Int) (h : sig = 2 ∨ sig = 9 ∨ sig = 15) (hrc : rc ≠ 0) :
    kill pid sig st rc = none ∧
    mainRun exe ⟨st, rc, q⟩
        (.withAction "kill" { pid := some pid, signal := some sig }) =
      ⟨1, [], true, false⟩ := by
  rcases h with rfl | rfl | rfl <;>
    constructor <;> simp [mainRun, kill, hrc]

/-- C9 (witness): signal 15 with `qdel` exit code 1. -/
theorem c9_unbound_alive_witness :
    kill 1234 15 "R" 1 = none ∧
    mainRun "python" ⟨"R", 1, "1.x"⟩
        (.withAction "kill" { pid := some 1234, signal := some 15 }) =
      ⟨1, [], true, false⟩ :=
  c9_unbound_alive "python" 1234 15 "R" "1.x" 1
    (Or.inr (Or.inr rfl)) (by decide)

/-- C10: for every spawn request (port present) whose env lacks
`JPY_API_TOKEN`, the run fails with a lookup error (`KeyError` on
line 114) before the `qsub` submission is ever invoked — no environment
is handed to `qsub`, nothing reaches the pipe, and the process exits
non-zero with no result. -/
theorem c10_token_required (exe : String) (args : List String)
    (env : List (String × String)) (c : Collab) (port : String)
    (hp : extractPort args = some port)
    (ht : lookupEnv env "JPY_API_TOKEN" = none) :
    spawn exe args env c.qsubOut = ⟨none, none, [], some .tokenMissing⟩ ∧
    mainRun exe c (.withAction "spawn" { args := some args, env := some env }) =
      ⟨1, [], false, true⟩ := by
  have hspawn : spawn exe args env c.qsubOut =
      ⟨none, none, [], some .tokenMissing⟩ := by
    unfold spawn
    rw [hp, ht]
  exact ⟨hspawn, by simp [mainRun, hspawn]⟩

/-- C10 (witness): `args = ["--port=1"]`, empty env. -/
theorem c10_token_required_witness :
    spawn "python" ["--port=1"] [] "1.x" =
      ⟨none, none, [], some .tokenMissing⟩ ∧
    mainRun "python" ⟨"R", 0, "1.x"⟩
        (.withAction "spawn" { args := some ["--port=1"], env := some [] }) =
      ⟨1, [], false, true⟩ :=
  c10_token_required "python" ["--port=1"] [] ⟨"R", 0, "1.x"⟩ "1" rfl rfl

end Mediator
